import Mathlib

/-!
Verification of the session layer of the gearman client runtime, as implemented
in src/libgearman/state.c. The C code is shallowly embedded: the session object
gearman_state_st and its connections become Lean structures, byte buffers become
List Nat, and C strings are the bytes up to the first NUL. The connection and
packet modules (gearman_connection_send / recv / flush / set_revents,
gearman_packet_create_args, gearman_state_pop_non_blocking) are not part of the
given sources; their observable results are oracle fields carried by each
connection, and their spec-mandated effects are modelled from the spec where a
claim needs them (see the doc comments starting with Modelled from the spec).
Memory allocation (malloc / realloc) is modelled as always succeeding.
-/

/-- Bytes of a string literal (ASCII). -/
def str_bytes (s : String) : List Nat :=
  s.toList.map Char.toNat

/-- Decimal rendering of a number as bytes, the output of a %d directive. -/
def nat_bytes (n : Nat) : List Nat :=
  (Nat.toDigits 10 n).map Char.toNat

/-- The C string stored in a byte buffer: the bytes before the first NUL. -/
def c_string (bs : List Nat) : List Nat :=
  bs.takeWhile (fun b => b != 0)

/-- Whether the byte list l starts with the byte list p. -/
def begins_with (p l : List Nat) : Bool :=
  l.take p.length == p

/-- Size of the bounded error buffer. Modelled from the spec: set_error
"formats into a bounded buffer"; the numeric value lives in the constants
header that is not under src/, 1024 as in the released library. -/
def GEARMAN_MAX_ERROR_SIZE : Nat := 1024

/-- Readable-event bit of a pollfd mask (platform value on Linux). -/
def POLLIN : Nat := 1

/-- Writable-event bit of a pollfd mask (platform value on Linux). -/
def POLLOUT : Nat := 4

/-- The interrupted-system-call errno (platform value on Linux). -/
def EINTR : Nat := 4

/-- Return codes of the library (spec section 7). The enum itself lives in the
constants header that is not under src/; these are the spec's closed tag set. -/
inductive gearman_return_t where
  | GEARMAN_SUCCESS
  | GEARMAN_IO_WAIT
  | GEARMAN_TIMEOUT
  | GEARMAN_NO_ACTIVE_FDS
  | GEARMAN_LOST_CONNECTION
  | GEARMAN_MEMORY_ALLOCATION_FAILURE
  | GEARMAN_INVALID_MAGIC
  | GEARMAN_INVALID_COMMAND
  | GEARMAN_INVALID_PACKET
  | GEARMAN_ARGUMENT_TOO_LARGE
  | GEARMAN_ECHO_DATA_CORRUPTION
  | GEARMAN_SERVER_ERROR
  | GEARMAN_ERRNO
  | GEARMAN_COULD_NOT_CONNECT
  | GEARMAN_SEND_IN_PROGRESS
  | GEARMAN_RECV_IN_PROGRESS
  | GEARMAN_NOT_CONNECTED
  | GEARMAN_UNKNOWN_STATE
deriving DecidableEq, Repr

open gearman_return_t

/-- Verbosity levels (spec section 6). -/
inductive gearman_verbose_t where
  | GEARMAN_VERBOSE_FATAL
  | GEARMAN_VERBOSE_ERROR
  | GEARMAN_VERBOSE_INFO
  | GEARMAN_VERBOSE_DEBUG
  | GEARMAN_VERBOSE_CRAZY
deriving DecidableEq, Repr

open gearman_verbose_t

/-- Session options gearman_set_option can name. The enum lives in the missing
header; these are the values state.c names (GEARMAN_MAX is the terminator value
and exercises the default arm of the switch). -/
inductive gearman_options_t where
  | GEARMAN_NON_BLOCKING
  | GEARMAN_DONT_TRACK_PACKETS
  | GEARMAN_MAX
deriving DecidableEq, Repr

/-- The state->options flag block (state.c lines 30-41). -/
structure gearman_options_st where
  allocated : Bool
  non_blocking : Bool
  dont_track_packets : Bool
  stored_non_blocking : Bool
deriving DecidableEq, Repr

/-- A framed packet; only the trailing data block is relevant to state.c
(gearman_echo compares data_size and the data bytes). data_size is the length
of data. -/
structure gearman_packet_st where
  data : List Nat
deriving DecidableEq, Repr

/-- The con->options flag block; state.c only reads and writes ready. -/
structure gearman_connection_options_st where
  ready : Bool
deriving DecidableEq, Repr

/-- One entry of the session's polling array. -/
structure pollfd where
  fd : Int
  events : Nat
  revents : Nat
deriving DecidableEq, Repr

/-- A connection. fd, events, revents, options.ready and the inbound packet
slot are the fields state.c reads and writes. The remaining fields are the
oracle for the connection and packet modules that are not under src/: state.c
calls each of flush, send, recv and set_revents at most once per connection
per operation, and the oracle fields give that call's result, its diagnostic
message on failure, and the data bytes a successful recv stores in the
connection's packet slot. -/
structure gearman_connection_st where
  fd : Int
  events : Nat
  revents : Nat
  options : gearman_connection_options_st
  packet : gearman_packet_st
  flush_ret : gearman_return_t
  flush_err : List Nat
  send_ret : gearman_return_t
  send_err : List Nat
  recv_ret : gearman_return_t
  recv_err : List Nat
  recv_data : List Nat
  set_revents_ret : gearman_return_t
  set_revents_err : List Nat
deriving DecidableEq, Repr

/-- The session (gearman_state_st). Hooks are modelled by whether they are
registered; log_msgs is the sequence of messages delivered to the log sink
(ghost state recording the sink's inputs). pfds models the prefix of the poll
buffer written by the latest wait call; last_error models the bytes the latest
error memcpy wrote into the bounded buffer. -/
structure gearman_state_st where
  options : gearman_options_st
  verbose : Nat
  con_count : Nat
  packet_count : Nat
  pfds_size : Nat
  sending : Nat
  last_errno : Nat
  timeout : Int
  con_list : List gearman_connection_st
  packet_list : List gearman_packet_st
  pfds : List pollfd
  log_fn : Bool
  log_msgs : List (List Nat × gearman_verbose_t)
  event_watch_fn : Bool
  workload_malloc_fn : Bool
  workload_free_fn : Bool
  last_error : List Nat
deriving DecidableEq, Repr

/-- gearman_state_set_error (state.c lines 378-409). The C variadic pair
(format, varargs) is modelled by the already formatted message bytes; the
calls in state.c use at most one %d, rendered by the caller model with
nat_bytes. The function assembles log_buffer = function ++ ":" ++ vsnprintf
output, where vsnprintf with bound n writes at most n - 1 bytes plus a
terminating NUL and reports the untruncated length. With no log sink the
clamped length + 1 leading bytes of log_buffer are copied into last_error;
with a sink the assembled C string is delivered at FATAL verbosity. Faithful
for function names shorter than the buffer (longer ones overflow the C stack
buffer, which is undefined behaviour). -/
def gearman_state_set_error (state : gearman_state_st) (function message : List Nat) :
    gearman_state_st :=
  let size0 := function.length + 1
  let n := GEARMAN_MAX_ERROR_SIZE - size0
  let vout := if n = 0 then [] else message.take (n - 1) ++ [0]
  let log_buffer := function ++ [58] ++ vout
  let size1 := size0 + message.length
  let size2 := if size1 ≥ GEARMAN_MAX_ERROR_SIZE then GEARMAN_MAX_ERROR_SIZE - 1 else size1
  cond state.log_fn
    { state with log_msgs := state.log_msgs ++ [(c_string log_buffer, GEARMAN_VERBOSE_FATAL)] }
    { state with last_error := log_buffer.take (size2 + 1) }

/-- Modelled from the spec: the connection- and packet-level callees state.c
invokes (gearman_packet_create_args, gearman_connection_send,
gearman_connection_recv, gearman_connection_flush,
gearman_connection_set_revents) are not under src/. Per spec section 7 every
error other than SUCCESS and IO_WAIT is surfaced with last_error populated, so
a failing callee is modelled as recording its diagnostic through
gearman_state_set_error. -/
def gearman_callee_record (state : gearman_state_st) (function message : List Nat)
    (ret : gearman_return_t) : gearman_state_st :=
  if ret = GEARMAN_SUCCESS ∨ ret = GEARMAN_IO_WAIT then state
  else gearman_state_set_error state function message

/-- Modelled from the spec: gearman_add_options is declared in the missing
header; per the configuration surface it raises the named option flag. Only
the NULL options path of gearman_state_create is exercised by the claims. -/
def gearman_add_options (state : gearman_state_st) (option : gearman_options_t) :
    gearman_state_st :=
  match option with
  | .GEARMAN_NON_BLOCKING => { state with options.non_blocking := true }
  | .GEARMAN_DONT_TRACK_PACKETS => { state with options.dont_track_packets := true }
  | .GEARMAN_MAX => state

/-- gearman_state_create (state.c lines 22-76). A NULL state argument means the
struct is heap-allocated (allocation modelled as succeeding); every field is
then set to its default. The C options array is a GEARMAN_MAX-terminated list,
modelled by the list of entries before the terminator. -/
def gearman_state_create (state_arg : Option gearman_state_st)
    (options : List gearman_options_t) : gearman_state_st :=
  let base : gearman_state_st := {
    options := { allocated := state_arg.isNone, dont_track_packets := false,
                 non_blocking := false, stored_non_blocking := false }
    verbose := 0
    con_count := 0
    packet_count := 0
    pfds_size := 0
    sending := 0
    last_errno := 0
    timeout := -1
    con_list := []
    packet_list := []
    pfds := []
    log_fn := false
    log_msgs := []
    event_watch_fn := false
    workload_malloc_fn := false
    workload_free_fn := false
    last_error := [0] }
  options.foldl gearman_add_options base

/-- gearman_set_option (state.c lines 121-137). -/
def gearman_set_option (state : gearman_state_st) (option : gearman_options_t)
    (value : Bool) : gearman_return_t × gearman_state_st :=
  match option with
  | .GEARMAN_NON_BLOCKING =>
    (GEARMAN_SUCCESS, { state with options.non_blocking := value })
  | .GEARMAN_DONT_TRACK_PACKETS =>
    (GEARMAN_SUCCESS, { state with options.dont_track_packets := value })
  | .GEARMAN_MAX => (GEARMAN_INVALID_COMMAND, state)

/-- gearman_set_timeout (state.c lines 144-147). -/
def gearman_set_timeout (state : gearman_state_st) (timeout : Int) : gearman_state_st :=
  { state with timeout := timeout }

/-- Modelled from the spec: gearman_connection_clone lives in the connection
module that is not under src/. A copy of the source connection is constructed
inside the destination session and, as every connection construction does per
the spec (add_server "links it at the head of the connection sequence,
increments con_count"), it is linked at the head of the list. -/
def gearman_connection_clone (state : gearman_state_st)
    (source : gearman_connection_st) : gearman_state_st :=
  { state with con_list := source :: state.con_list, con_count := state.con_count + 1 }

/-- gearman_state_clone (state.c lines 78-107): create the destination with
defaults, and when a source is given copy its two option flags and timeout and
clone its connections in list order; jobs and packets are not cloned. -/
def gearman_state_clone (destination source : Option gearman_state_st) :
    gearman_state_st :=
  let dest := gearman_state_create destination []
  match source with
  | none => dest
  | some src =>
    let dest := (gearman_set_option dest .GEARMAN_NON_BLOCKING src.options.non_blocking).2
    let dest := (gearman_set_option dest .GEARMAN_DONT_TRACK_PACKETS
                  src.options.dont_track_packets).2
    let dest := { dest with timeout := src.timeout }
    src.con_list.foldl gearman_connection_clone dest

/-- Function-name bytes used in the state.c diagnostics. -/
def wait_name : List Nat := str_bytes "gearman_wait"

/-- Function-name bytes gearman_echo passes to set_error. -/
def echo_name : List Nat := str_bytes "gearman_echo"

/-- Function-name bytes for the modelled connection flush callee. -/
def flush_fn_name : List Nat := str_bytes "gearman_connection_flush"

/-- Function-name bytes for the modelled connection send callee. -/
def send_fn_name : List Nat := str_bytes "gearman_connection_send"

/-- Function-name bytes for the modelled connection recv callee. -/
def recv_fn_name : List Nat := str_bytes "gearman_connection_recv"

/-- Function-name bytes for the modelled revents dispatcher callee. -/
def set_revents_fn_name : List Nat := str_bytes "gearman_connection_set_revents"

/-- Function-name bytes for the modelled packet construction callee. -/
def packet_create_fn_name : List Nat := str_bytes "gearman_packet_create_args"

/-- gearman_flush_all's loop (state.c lines 192-200): connections whose
desired-events mask has the writable bit are skipped; otherwise the
connection's flush is invoked (its result given by the flush_ret oracle, its
spec-mandated error recording modelled by gearman_callee_record) and any
result other than SUCCESS and IO_WAIT is returned at once. -/
def gearman_flush_all_go : gearman_state_st → List gearman_connection_st →
    gearman_return_t × gearman_state_st
  | state, [] => (GEARMAN_SUCCESS, state)
  | state, con :: rest =>
    if con.events &&& POLLOUT ≠ 0 then
      gearman_flush_all_go state rest
    else
      let ret := con.flush_ret
      let state1 := gearman_callee_record state flush_fn_name con.flush_err ret
      if ret ≠ GEARMAN_SUCCESS ∧ ret ≠ GEARMAN_IO_WAIT then (ret, state1)
      else gearman_flush_all_go state1 rest

/-- gearman_flush_all (state.c lines 187-203). -/
def gearman_flush_all (state : gearman_state_st) : gearman_return_t × gearman_state_st :=
  gearman_flush_all_go state state.con_list

/-- The claim's own description of gearman_flush_all's result: the first flush
result among the connections without the writable bit that is neither SUCCESS
nor IO_WAIT, or SUCCESS when there is none. -/
def flush_all_claimed (cons : List gearman_connection_st) : gearman_return_t :=
  ((((cons.filter (fun c => c.events &&& POLLOUT == 0)).map
      (fun c => c.flush_ret)).filter
      (fun r => !(r == GEARMAN_SUCCESS || r == GEARMAN_IO_WAIT))).headD GEARMAN_SUCCESS)

/-- The entries gearman_wait's populate loop writes (state.c lines 228-238):
one pollfd per connection with a non-empty desired-events mask, in list
order. -/
def gearman_wait_entries (cons : List gearman_connection_st) : List pollfd :=
  (cons.filter (fun c => c.events != 0)).map
    (fun c => { fd := c.fd, events := c.events, revents := 0 })

/-- The pfds growth step of gearman_wait (state.c lines 213-226); the realloc
is modelled as succeeding. -/
def gearman_wait_grown (state : gearman_state_st) : gearman_state_st :=
  if state.pfds_size < state.con_count then { state with pfds_size := state.con_count }
  else state

/-- One outcome of the poll system call: failure with an errno, or a
non-negative count together with the revents poll wrote for each entry. -/
inductive poll_outcome where
  | poll_fail (e : Nat)
  | poll_ok (n : Nat) (revents : List Nat)
deriving DecidableEq, Repr

/-- The while loop around poll (state.c lines 246-260): a -1 result with errno
EINTR is consumed and the poll retried; the first other outcome is acted on.
none means the oracle trace ran out (the C would still be polling). -/
def gearman_poll_retry : List poll_outcome → Option (poll_outcome × List poll_outcome)
  | [] => none
  | .poll_fail e :: rest =>
    if e = EINTR then gearman_poll_retry rest else some (.poll_fail e, rest)
  | .poll_ok n revents :: rest => some (.poll_ok n revents, rest)

/-- Modelled from the spec: the revents dispatcher of the connection module is
not under src/. Per the spec it records the returned events and "may
transition its state machine and set the connection's ready flag"; its result
is the set_revents_ret oracle. -/
def gearman_connection_set_revents (con : gearman_connection_st) (revents : Nat) :
    gearman_return_t × gearman_connection_st :=
  (con.set_revents_ret,
   { con with revents := revents,
              options := { con.options with ready := con.options.ready || revents != 0 } })

/-- The distribution loop of gearman_wait (state.c lines 268-279): each
connection with a non-empty mask receives the next revents value; a dispatcher
result other than SUCCESS is returned at once (its spec-mandated error
recording modelled by gearman_callee_record). -/
def gearman_wait_dispatch : gearman_state_st → List Nat → List gearman_connection_st →
    List gearman_connection_st → gearman_return_t × gearman_state_st
  | state, _, acc, [] => (GEARMAN_SUCCESS, { state with con_list := acc.reverse })
  | state, revs, acc, con :: rest =>
    if con.events = 0 then gearman_wait_dispatch state revs (con :: acc) rest
    else
      let gret := (gearman_connection_set_revents con (revs.headD 0)).1
      let con1 := (gearman_connection_set_revents con (revs.headD 0)).2
      let state1 := gearman_callee_record state set_revents_fn_name con.set_revents_err gret
      if gret ≠ GEARMAN_SUCCESS then
        (gret, { state1 with con_list := acc.reverse ++ con1 :: rest })
      else gearman_wait_dispatch state1 revs.tail (con1 :: acc) rest

/-- Diagnostic bytes of the no-active-fds error in gearman_wait. -/
def no_fds_msg : List Nat := str_bytes "no active file descriptors"

/-- Diagnostic bytes of the poll failure error in gearman_wait ("poll:%d"). -/
def poll_msg (e : Nat) : List Nat := str_bytes "poll:" ++ nat_bytes e

/-- Diagnostic bytes of the timeout error in gearman_wait. -/
def timeout_msg : List Nat := str_bytes "timeout reached"

/-- The session state after gearman_wait's growth and populate steps: the pfds
buffer holds the written entries. -/
def gearman_wait_prepped (state : gearman_state_st) : gearman_state_st :=
  { gearman_wait_grown state with pfds := gearman_wait_entries state.con_list }

/-- The session state gearman_wait leaves on the NO_ACTIVE_FDS exit. -/
def gearman_wait_no_fds_state (state : gearman_state_st) : gearman_state_st :=
  gearman_state_set_error (gearman_wait_prepped state) wait_name no_fds_msg

/-- The session state gearman_wait leaves on the ERRNO exit: diagnostic
recorded and last_errno captured. -/
def gearman_wait_errno_state (state : gearman_state_st) (e : Nat) : gearman_state_st :=
  { gearman_state_set_error (gearman_wait_prepped state) wait_name (poll_msg e) with
      last_errno := e }

/-- The session state gearman_wait leaves on the TIMEOUT exit. -/
def gearman_wait_timeout_state (state : gearman_state_st) : gearman_state_st :=
  gearman_state_set_error (gearman_wait_prepped state) wait_name timeout_msg

/-- gearman_wait (state.c lines 205-282). The poll system call is an oracle
trace consumed left to right; the result carries the remaining trace. none
means the trace ran out inside the retry loop. -/
def gearman_wait (state : gearman_state_st) (polls : List poll_outcome) :
    Option (gearman_return_t × gearman_state_st × List poll_outcome) :=
  if (gearman_wait_entries state.con_list).length = 0 then
    some (GEARMAN_NO_ACTIVE_FDS, gearman_wait_no_fds_state state, polls)
  else
    match gearman_poll_retry polls with
    | none => none
    | some (.poll_fail e, rest) =>
      some (GEARMAN_ERRNO, gearman_wait_errno_state state e, rest)
    | some (.poll_ok 0 _, rest) =>
      some (GEARMAN_TIMEOUT, gearman_wait_timeout_state state, rest)
    | some (.poll_ok (_ + 1) revents, rest) =>
      let pair := gearman_wait_dispatch (gearman_wait_prepped state) revents []
        (gearman_wait_prepped state).con_list
      some (pair.1, pair.2, rest)

/-- gearman_ready's scan (state.c lines 291-300): find the first connection
whose ready flag is set, clear the flag, return the connection; later
connections are not inspected. -/
def gearman_ready_go : List gearman_connection_st →
    Option gearman_connection_st × List gearman_connection_st
  | [] => (none, [])
  | con :: rest =>
    if con.options.ready then
      (some { con with options := { con.options with ready := false } },
       { con with options := { con.options with ready := false } } :: rest)
    else
      ((gearman_ready_go rest).1, con :: (gearman_ready_go rest).2)

/-- gearman_ready (state.c lines 284-301). -/
def gearman_ready (state : gearman_state_st) :
    Option gearman_connection_st × gearman_state_st :=
  ((gearman_ready_go state.con_list).1,
   { state with con_list := (gearman_ready_go state.con_list).2 })

/-- gearman_state_push_blocking (state.c lines 307-311). -/
def gearman_state_push_blocking (state : gearman_state_st) : gearman_state_st :=
  { state with options := { state.options with
      stored_non_blocking := state.options.non_blocking, non_blocking := false } }

/-- Modelled from the spec: gearman_state_pop_non_blocking is not under src/
(state.c only calls it). Per the spec push_blocking/pop_non_blocking bracket a
subroutine and echo "restores mode on every exit path", so pop restores
non_blocking from the value stored by the matching push. -/
def gearman_state_pop_non_blocking (state : gearman_state_st) : gearman_state_st :=
  { state with options := { state.options with
      non_blocking := state.options.stored_non_blocking } }

/-- Diagnostic bytes of the data-mismatch error in gearman_echo. -/
def corruption_msg : List Nat := str_bytes "corruption during echo"

/-- gearman_echo's connection loop (state.c lines 328-360). For each
connection in turn: send the request (result from the send_ret oracle; on
failure record, pop blocking mode and return), receive the response into the
connection's packet slot (recv_ret / recv_data oracles), and compare sizes and
bytes against the workload; a mismatch frees the inbound packet, pops blocking
mode, records the corruption diagnostic and returns ECHO_DATA_CORRUPTION. The
processed prefix is kept in acc (reversed). -/
def gearman_echo_go (workload : List Nat) : gearman_state_st →
    List gearman_connection_st → List gearman_connection_st →
    gearman_return_t × gearman_state_st
  | state, acc, [] =>
    (GEARMAN_SUCCESS, gearman_state_pop_non_blocking { state with con_list := acc.reverse })
  | state, acc, con :: rest =>
    if con.send_ret ≠ GEARMAN_SUCCESS then
      let state1 := gearman_callee_record state send_fn_name con.send_err con.send_ret
      (con.send_ret,
       gearman_state_pop_non_blocking { state1 with con_list := acc.reverse ++ con :: rest })
    else if con.recv_ret ≠ GEARMAN_SUCCESS then
      let state1 := gearman_callee_record state recv_fn_name con.recv_err con.recv_ret
      (con.recv_ret,
       gearman_state_pop_non_blocking { state1 with con_list := acc.reverse ++ con :: rest })
    else
      let con1 := { con with packet := { data := con.recv_data } }
      if con1.packet.data.length ≠ workload.length ∨
          con1.packet.data.take workload.length ≠ workload then
        let con2 := { con1 with packet := { data := [] } }
        let state1 := gearman_state_pop_non_blocking
          { state with con_list := acc.reverse ++ con2 :: rest }
        (GEARMAN_ECHO_DATA_CORRUPTION,
         gearman_state_set_error state1 echo_name corruption_msg)
      else
        gearman_echo_go workload state ({ con1 with packet := { data := [] } } :: acc) rest

/-- gearman_echo (state.c lines 313-366). The ECHO_REQ packet construction is
the packet module's work (not under src/); its result is the create_ret
oracle argument, with create_err its diagnostic on failure. On construction
success blocking mode is pushed and the connection loop runs. -/
def gearman_echo (state : gearman_state_st) (workload : List Nat)
    (create_ret : gearman_return_t) (create_err : List Nat) :
    gearman_return_t × gearman_state_st :=
  if create_ret ≠ GEARMAN_SUCCESS then
    (create_ret, gearman_callee_record state packet_create_fn_name create_err create_ret)
  else
    gearman_echo_go workload (gearman_state_push_blocking state) []
      (gearman_state_push_blocking state).con_list

/-- A connection with quiescent oracle values, used by concrete instances. -/
def sample_con : gearman_connection_st :=
  { fd := 5, events := 0, revents := 0, options := { ready := false },
    packet := { data := [] },
    flush_ret := GEARMAN_SUCCESS, flush_err := [],
    send_ret := GEARMAN_SUCCESS, send_err := [],
    recv_ret := GEARMAN_SUCCESS, recv_err := [],
    recv_data := [], set_revents_ret := GEARMAN_SUCCESS, set_revents_err := [] }

/-- A freshly created session, used by concrete instances. -/
def sample_state : gearman_state_st := gearman_state_create none []

/-- A connection asking for readable events, used by concrete instances. -/
def pollin_con : gearman_connection_st := { sample_con with events := POLLIN }

/-- A session with one active connection, used by concrete instances. -/
def one_con_state : gearman_state_st :=
  { sample_state with con_list := [pollin_con], con_count := 1 }

/-- A connection whose ready flag is set, used by concrete instances. -/
def ready_con : gearman_connection_st :=
  { sample_con with options := { ready := true } }

/-- A session holding one ready connection, used by concrete instances. -/
def ready_state : gearman_state_st :=
  { sample_state with con_list := [ready_con], con_count := 1 }

/-- A connection whose echo response bytes are [1], used by concrete
instances: against an empty workload this is a size mismatch. -/
def mismatch_con : gearman_connection_st := { sample_con with recv_data := [1] }

/-- A session with a log sink registered and one mismatching connection. -/
def sink_state : gearman_state_st :=
  { sample_state with log_fn := true, con_list := [mismatch_con], con_count := 1 }

/-- A session without a log sink holding one mismatching connection. -/
def no_sink_state : gearman_state_st :=
  { sample_state with con_list := [mismatch_con], con_count := 1 }

/-- A function name of GEARMAN_MAX_ERROR_SIZE - 1 bytes (all letter a): with
the separator it exactly fills the error buffer. -/
def long_fn : List Nat := List.replicate (GEARMAN_MAX_ERROR_SIZE - 1) 97

/-! Helper lemmas: frame facts about the error recorder and the mode stack. -/

theorem gearman_state_set_error_options (s : gearman_state_st) (fn msg : List Nat) :
    (gearman_state_set_error s fn msg).options = s.options := by
  simp only [gearman_state_set_error]
  cases s.log_fn <;> rfl

theorem gearman_state_set_error_log_fn (s : gearman_state_st) (fn msg : List Nat) :
    (gearman_state_set_error s fn msg).log_fn = s.log_fn := by
  simp only [gearman_state_set_error]
  cases s.log_fn <;> rfl

theorem gearman_callee_record_options (s : gearman_state_st) (fn msg : List Nat)
    (r : gearman_return_t) :
    (gearman_callee_record s fn msg r).options = s.options := by
  unfold gearman_callee_record
  split
  · rfl
  · exact gearman_state_set_error_options s fn msg

theorem gearman_callee_record_log_fn (s : gearman_state_st) (fn msg : List Nat)
    (r : gearman_return_t) :
    (gearman_callee_record s fn msg r).log_fn = s.log_fn := by
  unfold gearman_callee_record
  split
  · rfl
  · exact gearman_state_set_error_log_fn s fn msg

theorem gearman_callee_record_of_failure (s : gearman_state_st) (fn msg : List Nat)
    (r : gearman_return_t) (h1 : r ≠ GEARMAN_SUCCESS) (h2 : r ≠ GEARMAN_IO_WAIT) :
    gearman_callee_record s fn msg r = gearman_state_set_error s fn msg := by
  unfold gearman_callee_record
  rw [if_neg]
  rintro (h | h)
  · exact h1 h
  · exact h2 h

/-! C1: gearman_echo restores the non-blocking mode on every exit path. -/

theorem gearman_echo_go_non_blocking (workload : List Nat) :
    ∀ (cons : List gearman_connection_st) (state : gearman_state_st)
      (acc : List gearman_connection_st),
      ((gearman_echo_go workload state acc cons).2).options.non_blocking
        = state.options.stored_non_blocking := by
  intro cons
  induction cons with
  | nil => intro state acc; rfl
  | cons con rest ih =>
    intro state acc
    by_cases hs : con.send_ret = GEARMAN_SUCCESS
    · by_cases hr : con.recv_ret = GEARMAN_SUCCESS
      · by_cases hm : con.recv_data.length ≠ workload.length ∨
            con.recv_data.take workload.length ≠ workload
        · simp only [gearman_echo_go, hs, hr, hm, ne_eq, not_true_eq_false, if_false,
            if_true, ite_true, ite_false]
          simp [gearman_state_set_error_options, gearman_state_pop_non_blocking]
        · simp only [gearman_echo_go, hs, hr, hm, ne_eq, not_true_eq_false, if_false,
            if_true, ite_true, ite_false]
          exact ih state _
      · simp only [gearman_echo_go, hs, hr, ne_eq, not_true_eq_false, if_false,
          ite_true, ite_false]
        simp [gearman_callee_record_options, gearman_state_pop_non_blocking]
    · simp only [gearman_echo_go, hs, ne_eq, not_true_eq_false, ite_true, ite_false]
      simp [gearman_callee_record_options, gearman_state_pop_non_blocking]

/-- C1: on every exit path of gearman_echo (packet-creation failure, send
failure, receive failure, data mismatch, success) the returned session's
non_blocking option equals its pre-call value: echo pushes blocking mode after
building the packet and pops it before every return. -/
theorem gearman_echo_restores_non_blocking (state : gearman_state_st)
    (workload create_err : List Nat) (create_ret : gearman_return_t) :
    ((gearman_echo state workload create_ret create_err).2).options.non_blocking
      = state.options.non_blocking := by
  by_cases hc : create_ret = GEARMAN_SUCCESS
  · simp only [gearman_echo, hc, ne_eq, not_true_eq_false, ite_false, if_false]
    rw [gearman_echo_go_non_blocking]
    rfl
  · simp only [gearman_echo, hc, ne_eq, ite_true, if_true]
    simp [gearman_callee_record_options]

/-! C7: gearman_set_option semantics. -/

/-- C7: gearman_set_option with NON_BLOCKING or DONT_TRACK_PACKETS sets
exactly that flag to the given value and returns SUCCESS (the record update
leaves every other field alone); with any other option value it returns
INVALID_COMMAND and the session is returned unchanged. -/
theorem gearman_set_option_spec (s : gearman_state_st) (v : Bool)
    (opt : gearman_options_t) :
    gearman_set_option s .GEARMAN_NON_BLOCKING v
        = (GEARMAN_SUCCESS, { s with options.non_blocking := v })
    ∧ gearman_set_option s .GEARMAN_DONT_TRACK_PACKETS v
        = (GEARMAN_SUCCESS, { s with options.dont_track_packets := v })
    ∧ (opt ≠ .GEARMAN_NON_BLOCKING → opt ≠ .GEARMAN_DONT_TRACK_PACKETS →
        gearman_set_option s opt v = (GEARMAN_INVALID_COMMAND, s)) := by
  refine ⟨rfl, rfl, ?_⟩
  intro h1 h2
  cases opt
  · exact absurd rfl h1
  · exact absurd rfl h2
  · rfl

/-- Witness for C7 at a concrete session and the concrete other option
GEARMAN_MAX. -/
theorem gearman_set_option_spec_witness :
    gearman_set_option sample_state .GEARMAN_MAX true
      = (GEARMAN_INVALID_COMMAND, sample_state) :=
  (gearman_set_option_spec sample_state true .GEARMAN_MAX).2.2
    (by decide) (by decide)

/-! C4: gearman_flush_all returns the first real flush failure. -/

theorem flush_all_claimed_cons_skip (con : gearman_connection_st)
    (rest : List gearman_connection_st) (h : (con.events &&& POLLOUT == 0) = false) :
    flush_all_claimed (con :: rest) = flush_all_claimed rest := by
  simp [flush_all_claimed, List.filter_cons, h]

theorem flush_all_claimed_cons_fail (con : gearman_connection_st)
    (rest : List gearman_connection_st) (h : (con.events &&& POLLOUT == 0) = true)
    (h1 : (con.flush_ret == GEARMAN_SUCCESS) = false)
    (h2 : (con.flush_ret == GEARMAN_IO_WAIT) = false) :
    flush_all_claimed (con :: rest) = con.flush_ret := by
  simp [flush_all_claimed, List.filter_cons, h, h1, h2]

theorem flush_all_claimed_cons_ok (con : gearman_connection_st)
    (rest : List gearman_connection_st) (h : (con.events &&& POLLOUT == 0) = true)
    (hok : (con.flush_ret == GEARMAN_SUCCESS) = true
      ∨ (con.flush_ret == GEARMAN_IO_WAIT) = true) :
    flush_all_claimed (con :: rest) = flush_all_claimed rest := by
  rcases hok with h1 | h1 <;> simp [flush_all_claimed, List.filter_cons, h, h1]

theorem gearman_flush_all_go_claimed :
    ∀ (cons : List gearman_connection_st) (state : gearman_state_st),
      (gearman_flush_all_go state cons).1 = flush_all_claimed cons := by
  intro cons
  induction cons with
  | nil => intro state; rfl
  | cons con rest ih =>
    intro state
    by_cases hp : con.events &&& POLLOUT = 0
    · have hpb : (con.events &&& POLLOUT == 0) = true := by simp [hp]
      by_cases hf : con.flush_ret ≠ GEARMAN_SUCCESS ∧ con.flush_ret ≠ GEARMAN_IO_WAIT
      · have hgo : gearman_flush_all_go state (con :: rest)
            = (con.flush_ret,
               gearman_callee_record state flush_fn_name con.flush_err con.flush_ret) := by
          simp [gearman_flush_all_go, hp, hf]
        rw [hgo]
        exact (flush_all_claimed_cons_fail con rest hpb
          (by simp [hf.1]) (by simp [hf.2])).symm
      · have hok : (con.flush_ret == GEARMAN_SUCCESS) = true
            ∨ (con.flush_ret == GEARMAN_IO_WAIT) = true := by
          rcases not_and_or.mp hf with h | h
          · exact Or.inl (by simp [not_not.mp h])
          · exact Or.inr (by simp [not_not.mp h])
        have hgo : gearman_flush_all_go state (con :: rest)
            = gearman_flush_all_go
                (gearman_callee_record state flush_fn_name con.flush_err con.flush_ret)
                rest := by
          simp [gearman_flush_all_go, hp, hf]
        rw [hgo, ih, flush_all_claimed_cons_ok con rest hpb hok]
    · have hpb : (con.events &&& POLLOUT == 0) = false := by simp [hp]
      have hgo : gearman_flush_all_go state (con :: rest)
          = gearman_flush_all_go state rest := by
        simp [gearman_flush_all_go, hp]
      rw [hgo, ih, flush_all_claimed_cons_skip con rest hpb]

/-- C4: gearman_flush_all walks the connection list in order, skips every
connection whose desired-events mask has the POLLOUT bit set, invokes flush on
the others, and returns the first flush result that is neither SUCCESS nor
IO_WAIT, or SUCCESS when there is none (stated as agreement with the
claim-worded selector flush_all_claimed). -/
theorem gearman_flush_all_spec (state : gearman_state_st) :
    (gearman_flush_all state).1 = flush_all_claimed state.con_list :=
  gearman_flush_all_go_claimed state.con_list state

/-! C8: gearman_ready returns the first ready connection and clears only
its flag. -/

theorem gearman_ready_go_none :
    ∀ (cons : List gearman_connection_st),
      (∀ c ∈ cons, c.options.ready = false) → gearman_ready_go cons = (none, cons) := by
  intro cons
  induction cons with
  | nil => intro _; rfl
  | cons con rest ih =>
    intro h
    have hc : con.options.ready = false := h con (by simp)
    have hr := ih (fun c hx => h c (by simp [hx]))
    simp [gearman_ready_go, hc, hr]

theorem gearman_ready_go_found (con : gearman_connection_st)
    (hc : con.options.ready = true) :
    ∀ (pre post : List gearman_connection_st),
      (∀ c ∈ pre, c.options.ready = false) →
      gearman_ready_go (pre ++ con :: post)
        = (some { con with options := { con.options with ready := false } },
           pre ++ { con with options := { con.options with ready := false } } :: post) := by
  intro pre
  induction pre with
  | nil => intro post _; simp [gearman_ready_go, hc]
  | cons c pre ih =>
    intro post h
    have h0 : c.options.ready = false := h c (by simp)
    have hr := ih post (fun x hx => h x (by simp [hx]))
    simp [gearman_ready_go, h0, hr]

/-- C8: gearman_ready scans the connection list from the head; the first
connection whose ready flag is set is returned with the flag cleared, the list
keeping every other connection untouched; when no connection is ready it
returns NULL (none) and the session is unchanged. -/
theorem gearman_ready_spec (state : gearman_state_st)
    (pre post : List gearman_connection_st) (con : gearman_connection_st) :
    (state.con_list = pre ++ con :: post →
      (∀ c ∈ pre, c.options.ready = false) →
      con.options.ready = true →
      gearman_ready state
        = (some { con with options := { con.options with ready := false } },
           { state with con_list :=
              pre ++ { con with options := { con.options with ready := false } } :: post }))
    ∧ ((∀ c ∈ state.con_list, c.options.ready = false) →
        gearman_ready state = (none, state)) := by
  constructor
  · intro hl hp hc
    simp [gearman_ready, hl, gearman_ready_go_found con hc pre post hp]
  · intro h
    simp [gearman_ready, gearman_ready_go_none state.con_list h]

/-- Witness for C8: a session holding one ready connection yields that
connection with the flag cleared. -/
theorem gearman_ready_spec_witness :
    gearman_ready ready_state
      = (some { ready_con with options := { ready_con.options with ready := false } },
         { ready_state with con_list :=
            [{ ready_con with options := { ready_con.options with ready := false } }] }) :=
  (gearman_ready_spec ready_state [] [] ready_con).1 rfl (by simp) (by decide)

/-! C10: gearman_state_clone copies options, timeout and connections, never
packets. -/

theorem gearman_connection_clone_foldl_con_list :
    ∀ (cons : List gearman_connection_st) (st : gearman_state_st),
      (List.foldl gearman_connection_clone st cons).con_list
        = cons.reverse ++ st.con_list := by
  intro cons
  induction cons with
  | nil => intro st; simp
  | cons c cs ih =>
    intro st
    simp only [List.foldl_cons, ih, gearman_connection_clone, List.reverse_cons,
      List.append_assoc, List.singleton_append]

theorem gearman_connection_clone_foldl_con_count :
    ∀ (cons : List gearman_connection_st) (st : gearman_state_st),
      (List.foldl gearman_connection_clone st cons).con_count
        = st.con_count + cons.length := by
  intro cons
  induction cons with
  | nil => intro st; simp
  | cons c cs ih =>
    intro st
    simp only [List.foldl_cons, ih, gearman_connection_clone, List.length_cons]
    omega

theorem gearman_connection_clone_foldl_frame :
    ∀ (cons : List gearman_connection_st) (st : gearman_state_st),
      (List.foldl gearman_connection_clone st cons).options = st.options
      ∧ (List.foldl gearman_connection_clone st cons).timeout = st.timeout
      ∧ (List.foldl gearman_connection_clone st cons).packet_list = st.packet_list
      ∧ (List.foldl gearman_connection_clone st cons).packet_count = st.packet_count := by
  intro cons
  induction cons with
  | nil => intro st; exact ⟨rfl, rfl, rfl, rfl⟩
  | cons c cs ih =>
    intro st
    simpa only [List.foldl_cons, gearman_connection_clone] using
      ih (gearman_connection_clone st c)

/-- C10: cloning from a source session copies its non_blocking and
dont_track_packets flags and its timeout, and rebuilds its connection list by
cloning every source connection (head insertion links them in reverse order,
con_count ending at the source list's length), while the packet list stays
empty and packet_count zero regardless of the source's packets; cloning from a
NULL source just returns the freshly default-initialized session of
gearman_state_create (timeout -1, no connections, no hooks). -/
theorem gearman_state_clone_spec (dst : Option gearman_state_st)
    (src : gearman_state_st) :
    ((gearman_state_clone dst (some src)).options.non_blocking
        = src.options.non_blocking
      ∧ (gearman_state_clone dst (some src)).options.dont_track_packets
        = src.options.dont_track_packets
      ∧ (gearman_state_clone dst (some src)).timeout = src.timeout
      ∧ (gearman_state_clone dst (some src)).con_list = src.con_list.reverse
      ∧ (gearman_state_clone dst (some src)).con_count = src.con_list.length
      ∧ (gearman_state_clone dst (some src)).packet_list = []
      ∧ (gearman_state_clone dst (some src)).packet_count = 0)
    ∧ (gearman_state_clone dst none = gearman_state_create dst []
      ∧ (gearman_state_clone dst none).timeout = -1
      ∧ (gearman_state_clone dst none).con_list = []
      ∧ (gearman_state_clone dst none).packet_list = []
      ∧ (gearman_state_clone dst none).log_fn = false
      ∧ (gearman_state_clone dst none).event_watch_fn = false
      ∧ (gearman_state_clone dst none).workload_malloc_fn = false
      ∧ (gearman_state_clone dst none).workload_free_fn = false) := by
  constructor
  · obtain ⟨ho, ht, hpl, hpc⟩ := gearman_connection_clone_foldl_frame src.con_list
      { (gearman_set_option
          (gearman_set_option (gearman_state_create dst [])
            .GEARMAN_NON_BLOCKING src.options.non_blocking).2
          .GEARMAN_DONT_TRACK_PACKETS src.options.dont_track_packets).2 with
        timeout := src.timeout }
    refine ⟨?_, ?_, ?_, ?_, ?_, ?_, ?_⟩
    · rw [show gearman_state_clone dst (some src) = _ from rfl] at *
      simpa [gearman_set_option, gearman_state_create] using ho ▸ rfl
    · simpa [gearman_set_option, gearman_state_create] using ho ▸ rfl
    · simpa using ht
    · rw [show (gearman_state_clone dst (some src)).con_list = _ from
        congrArg gearman_state_st.con_list rfl]
      rw [show gearman_state_clone dst (some src)
          = List.foldl gearman_connection_clone _ src.con_list from rfl]
      rw [gearman_connection_clone_foldl_con_list]
      simp [gearman_set_option, gearman_state_create]
    · rw [show gearman_state_clone dst (some src)
          = List.foldl gearman_connection_clone _ src.con_list from rfl]
      rw [gearman_connection_clone_foldl_con_count]
      simp [gearman_set_option, gearman_state_create]
    · simpa [gearman_set_option, gearman_state_create] using hpl
    · simpa [gearman_set_option, gearman_state_create] using hpc
  · exact ⟨rfl, rfl, rfl, rfl, rfl, rfl, rfl, rfl⟩

/-! C2 and C3: gearman_wait's poll-outcome handling and the no-active-fds
guard. -/

/-- C2: once the polled-entry count is positive, a poll failure with errno
EINTR is consumed and the call behaves exactly as without it (retried, never
surfaced); a poll failure with any other errno makes wait return ERRNO with
the diagnostic recorded and last_errno set to that errno, consuming only that
outcome; a poll return of 0 makes wait return TIMEOUT. The third component of
the result is the unconsumed poll trace. -/
theorem gearman_wait_poll_semantics (state : gearman_state_st)
    (polls : List poll_outcome) (e : Nat) (revents : List Nat)
    (hx : (gearman_wait_entries state.con_list).length ≠ 0) :
    gearman_wait state (.poll_fail EINTR :: polls) = gearman_wait state polls
    ∧ (e ≠ EINTR →
        gearman_wait state (.poll_fail e :: polls)
          = some (GEARMAN_ERRNO, gearman_wait_errno_state state e, polls)
        ∧ (gearman_wait_errno_state state e).last_errno = e)
    ∧ gearman_wait state (.poll_ok 0 revents :: polls)
        = some (GEARMAN_TIMEOUT, gearman_wait_timeout_state state, polls) := by
  refine ⟨?_, ?_, ?_⟩
  · have hr : gearman_poll_retry (.poll_fail EINTR :: polls) = gearman_poll_retry polls := by
      simp [gearman_poll_retry]
    simp only [gearman_wait, hr, if_neg hx]
  · intro he
    have hr : gearman_poll_retry (.poll_fail e :: polls) = some (.poll_fail e, polls) := by
      simp [gearman_poll_retry, he]
    constructor
    · simp only [gearman_wait, hr, if_neg hx]
    · rfl
  · have hr : gearman_poll_retry (.poll_ok 0 revents :: polls)
        = some (.poll_ok 0 revents, polls) := by
      simp [gearman_poll_retry]
    simp only [gearman_wait, hr, if_neg hx]

/-- Witness for C2 at a one-connection session, errno 13 and empty traces. -/
theorem gearman_wait_poll_semantics_witness :
    gearman_wait one_con_state [.poll_fail EINTR] = gearman_wait one_con_state []
    ∧ (gearman_wait one_con_state [.poll_fail 13]
        = some (GEARMAN_ERRNO, gearman_wait_errno_state one_con_state 13, [])
      ∧ (gearman_wait_errno_state one_con_state 13).last_errno = 13)
    ∧ gearman_wait one_con_state [.poll_ok 0 []]
        = some (GEARMAN_TIMEOUT, gearman_wait_timeout_state one_con_state, []) := by
  have h := gearman_wait_poll_semantics one_con_state [] 13 [] (by decide)
  exact ⟨h.1, h.2.1 (by decide), h.2.2⟩

theorem gearman_wait_entries_nil (cons : List gearman_connection_st)
    (h : ∀ con ∈ cons, con.events = 0) : gearman_wait_entries cons = [] := by
  unfold gearman_wait_entries
  rw [List.filter_eq_nil_iff.mpr]
  · rfl
  · intro c hc
    simp [h c hc]

/-- C3: when every connection of the session has an empty desired-events mask
(in particular when there are no connections), gearman_wait fails with
NO_ACTIVE_FDS; the poll trace is returned unconsumed, i.e. no poll is
performed. -/
theorem gearman_wait_no_active_fds (state : gearman_state_st)
    (polls : List poll_outcome) (h : ∀ con ∈ state.con_list, con.events = 0) :
    gearman_wait state polls
      = some (GEARMAN_NO_ACTIVE_FDS, gearman_wait_no_fds_state state, polls) := by
  have he : gearman_wait_entries state.con_list = [] := gearman_wait_entries_nil _ h
  simp [gearman_wait, he]

/-- Witness for C3 at a session with no connections and a nonempty poll trace
(returned unconsumed). -/
theorem gearman_wait_no_active_fds_witness :
    gearman_wait sample_state [.poll_ok 1 [POLLIN]]
      = some (GEARMAN_NO_ACTIVE_FDS, gearman_wait_no_fds_state sample_state,
          [.poll_ok 1 [POLLIN]]) :=
  gearman_wait_no_active_fds sample_state [.poll_ok 1 [POLLIN]] (by decide)

/-! C9: the error formatter's buffer discipline. -/

theorem gearman_state_set_error_no_log (s : gearman_state_st) (fn msg : List Nat)
    (hl : s.log_fn = false) (hf : fn.length + 2 ≤ GEARMAN_MAX_ERROR_SIZE) :
    (gearman_state_set_error s fn msg).last_error
      = fn ++ [58] ++ msg.take (GEARMAN_MAX_ERROR_SIZE - fn.length - 2) ++ [0] := by
  have hn : GEARMAN_MAX_ERROR_SIZE - (fn.length + 1) ≠ 0 := by
    simp only [GEARMAN_MAX_ERROR_SIZE] at hf ⊢
    omega
  have hk : GEARMAN_MAX_ERROR_SIZE - (fn.length + 1) - 1
      = GEARMAN_MAX_ERROR_SIZE - fn.length - 2 := by omega
  have hlen : (fn ++ [58] ++ (msg.take (GEARMAN_MAX_ERROR_SIZE - fn.length - 2)
        ++ [0])).length
      ≤ (if fn.length + 1 + msg.length ≥ GEARMAN_MAX_ERROR_SIZE
          then GEARMAN_MAX_ERROR_SIZE - 1 else fn.length + 1 + msg.length) + 1 := by
    simp only [List.length_append, List.length_take, List.length_cons, List.length_nil]
    have h1 := Nat.min_le_left (GEARMAN_MAX_ERROR_SIZE - fn.length - 2) msg.length
    have h2 := Nat.min_le_right (GEARMAN_MAX_ERROR_SIZE - fn.length - 2) msg.length
    by_cases hc : fn.length + 1 + msg.length ≥ GEARMAN_MAX_ERROR_SIZE
    · rw [if_pos hc]
      simp only [GEARMAN_MAX_ERROR_SIZE] at *
      omega
    · rw [if_neg hc]
      simp only [GEARMAN_MAX_ERROR_SIZE] at *
      omega
  simp only [gearman_state_set_error, hl, Bool.cond_false, if_neg hn, hk,
    List.take_of_length_le hlen]
  simp [List.append_assoc]

theorem c_string_append_nul :
    ∀ (l : List Nat), (∀ b ∈ l, b ≠ 0) → c_string (l ++ [0]) = l := by
  intro l
  induction l with
  | nil => intro _; rfl
  | cons a t ih =>
    intro h
    have ha : a ≠ 0 := h a (by simp)
    have ht := ih (fun b hb => h b (by simp [hb]))
    simp only [c_string, List.cons_append, List.takeWhile_cons] at ht ⊢
    simp [ha, ht]

theorem gearman_state_set_error_with_log (s : gearman_state_st) (fn msg : List Nat)
    (hl : s.log_fn = true) (hf : fn.length + 2 ≤ GEARMAN_MAX_ERROR_SIZE)
    (hfn : 0 ∉ fn) (hmsg : 0 ∉ msg) :
    (gearman_state_set_error s fn msg).last_error = s.last_error
    ∧ (gearman_state_set_error s fn msg).log_msgs
        = s.log_msgs
          ++ [(fn ++ [58] ++ msg.take (GEARMAN_MAX_ERROR_SIZE - fn.length - 2),
               GEARMAN_VERBOSE_FATAL)] := by
  have hn : GEARMAN_MAX_ERROR_SIZE - (fn.length + 1) ≠ 0 := by
    simp only [GEARMAN_MAX_ERROR_SIZE] at hf ⊢
    omega
  have hk : GEARMAN_MAX_ERROR_SIZE - (fn.length + 1) - 1
      = GEARMAN_MAX_ERROR_SIZE - fn.length - 2 := by omega
  constructor
  · simp only [gearman_state_set_error, hl, Bool.cond_true]
  · simp only [gearman_state_set_error, hl, Bool.cond_true, if_neg hn, hk]
    have hall : ∀ b ∈ fn ++ [58] ++ msg.take (GEARMAN_MAX_ERROR_SIZE - fn.length - 2),
        b ≠ 0 := by
      intro b hb
      simp only [List.mem_append] at hb
      rcases hb with (hb | hb) | hb
      · exact fun hz => hfn (hz ▸ hb)
      · simp only [List.mem_singleton] at hb
        subst hb
        decide
      · have hbm : b ∈ msg := List.take_subset _ _ hb
        exact fun hz => hmsg (hz ▸ hbm)
    have hdel : c_string (fn ++ [58] ++
        (msg.take (GEARMAN_MAX_ERROR_SIZE - fn.length - 2) ++ [0]))
        = fn ++ [58] ++ msg.take (GEARMAN_MAX_ERROR_SIZE - fn.length - 2) := by
      rw [show fn ++ [58] ++ (msg.take (GEARMAN_MAX_ERROR_SIZE - fn.length - 2) ++ [0])
          = (fn ++ [58] ++ msg.take (GEARMAN_MAX_ERROR_SIZE - fn.length - 2)) ++ [0] by
        simp [List.append_assoc]]
      exact c_string_append_nul _ hall
    rw [hdel]

set_option maxRecDepth 100000 in
/-- C9 counterexample: a function name of GEARMAN_MAX_ERROR_SIZE - 1 bytes
leaves no room for vsnprintf's terminator; with no log sink the buffer is
filled with the name and the separator and carries no NUL at all, refuting
"always NUL-terminated". -/
theorem gearman_set_error_nul_cex :
    (gearman_state_set_error sample_state long_fn (str_bytes "x")).last_error
        = long_fn ++ [58]
    ∧ 0 ∉ (gearman_state_set_error sample_state long_fn (str_bytes "x")).last_error := by
  constructor
  · decide
  · decide

/-- C9 (amended): for every function name that leaves room for the separator
and the terminator (length at most GEARMAN_MAX_ERROR_SIZE - 2; NUL-free, as C
strings are), with no log sink registered set_error writes into last_error the
bytes function ++ ":" ++ formatted message, truncated to the bounded buffer
size and NUL-terminated, and delivers nothing to a sink; with a log sink
registered the formatted C string is delivered to the sink at FATAL verbosity
and last_error is not written. A function name of exactly
GEARMAN_MAX_ERROR_SIZE - 1 bytes violates the NUL-termination (see the
counterexample), which forces the length bound. -/
theorem gearman_set_error_spec (s : gearman_state_st) (fn msg : List Nat)
    (hfn : 0 ∉ fn) (hmsg : 0 ∉ msg)
    (hf : fn.length + 2 ≤ GEARMAN_MAX_ERROR_SIZE) :
    (s.log_fn = false →
      (gearman_state_set_error s fn msg).last_error
          = fn ++ [58] ++ msg.take (GEARMAN_MAX_ERROR_SIZE - fn.length - 2) ++ [0]
      ∧ (gearman_state_set_error s fn msg).last_error.length ≤ GEARMAN_MAX_ERROR_SIZE
      ∧ (gearman_state_set_error s fn msg).last_error.getLast? = some 0
      ∧ (gearman_state_set_error s fn msg).log_msgs = s.log_msgs)
    ∧ (s.log_fn = true →
      (gearman_state_set_error s fn msg).last_error = s.last_error
      ∧ (gearman_state_set_error s fn msg).log_msgs
          = s.log_msgs
            ++ [(fn ++ [58] ++ msg.take (GEARMAN_MAX_ERROR_SIZE - fn.length - 2),
                 GEARMAN_VERBOSE_FATAL)]) := by
  constructor
  · intro hl
    have heq := gearman_state_set_error_no_log s fn msg hl hf
    refine ⟨heq, ?_, ?_, ?_⟩
    · rw [heq]
      simp only [List.length_append, List.length_take, List.length_cons, List.length_nil]
      have h1 := Nat.min_le_left (GEARMAN_MAX_ERROR_SIZE - fn.length - 2) msg.length
      simp only [GEARMAN_MAX_ERROR_SIZE] at *
      omega
    · rw [heq]
      exact List.getLast?_concat _
    · simp only [gearman_state_set_error, hl, Bool.cond_false]
  · intro hl
    exact gearman_state_set_error_with_log s fn msg hl hf hfn hmsg

/-- Witness for C9 at a fresh session, the function name of gearman_wait and
a one-byte message. -/
theorem gearman_set_error_spec_witness :
    (gearman_state_set_error sample_state wait_name (str_bytes "x")).last_error
        = wait_name ++ [58]
          ++ (str_bytes "x").take (GEARMAN_MAX_ERROR_SIZE - wait_name.length - 2) ++ [0]
    ∧ (gearman_state_set_error sample_state wait_name (str_bytes "x")).last_error.length
        ≤ GEARMAN_MAX_ERROR_SIZE
    ∧ (gearman_state_set_error sample_state wait_name
        (str_bytes "x")).last_error.getLast? = some 0
    ∧ (gearman_state_set_error sample_state wait_name (str_bytes "x")).log_msgs
        = sample_state.log_msgs :=
  (gearman_set_error_spec sample_state wait_name (str_bytes "x")
    (by decide) (by decide) (by decide)).1 (by decide)

/-! Branch equations of the echo, flush and dispatch loops, used by the
corruption and error-recording proofs. -/

theorem gearman_callee_record_of_ok (s : gearman_state_st) (fn msg : List Nat)
    (r : gearman_return_t) (h : r = GEARMAN_SUCCESS ∨ r = GEARMAN_IO_WAIT) :
    gearman_callee_record s fn msg r = s := by
  unfold gearman_callee_record
  rw [if_pos h]

theorem gearman_echo_go_cons_send_fail (workload : List Nat)
    (state : gearman_state_st) (acc : List gearman_connection_st)
    (con : gearman_connection_st) (rest : List gearman_connection_st)
    (h : con.send_ret ≠ GEARMAN_SUCCESS) :
    gearman_echo_go workload state acc (con :: rest)
      = (con.send_ret, gearman_state_pop_non_blocking
          { gearman_callee_record state send_fn_name con.send_err con.send_ret with
            con_list := acc.reverse ++ con :: rest }) := by
  simp [gearman_echo_go, h]

theorem gearman_echo_go_cons_recv_fail (workload : List Nat)
    (state : gearman_state_st) (acc : List gearman_connection_st)
    (con : gearman_connection_st) (rest : List gearman_connection_st)
    (hs : con.send_ret = GEARMAN_SUCCESS) (h : con.recv_ret ≠ GEARMAN_SUCCESS) :
    gearman_echo_go workload state acc (con :: rest)
      = (con.recv_ret, gearman_state_pop_non_blocking
          { gearman_callee_record state recv_fn_name con.recv_err con.recv_ret with
            con_list := acc.reverse ++ con :: rest }) := by
  simp [gearman_echo_go, hs, h]

theorem gearman_echo_go_cons_mismatch (workload : List Nat)
    (state : gearman_state_st) (acc : List gearman_connection_st)
    (con : gearman_connection_st) (rest : List gearman_connection_st)
    (hs : con.send_ret = GEARMAN_SUCCESS) (hr : con.recv_ret = GEARMAN_SUCCESS)
    (hm : con.recv_data ≠ workload) :
    gearman_echo_go workload state acc (con :: rest)
      = (GEARMAN_ECHO_DATA_CORRUPTION,
         gearman_state_set_error
           (gearman_state_pop_non_blocking
             { state with con_list := acc.reverse
                 ++ { con with packet := { data := [] } } :: rest })
           echo_name corruption_msg) := by
  have hcond : con.recv_data.length ≠ workload.length ∨
      con.recv_data.take workload.length ≠ workload := by
    by_cases hl2 : con.recv_data.length = workload.length
    · right
      rw [← hl2, List.take_length]
      exact hm
    · exact Or.inl hl2
  simp only [gearman_echo_go]
  rw [if_neg (by simp [hs]), if_neg (by simp [hr]), if_pos (by simpa using hcond)]

theorem gearman_echo_go_cons_match (workload : List Nat)
    (state : gearman_state_st) (acc : List gearman_connection_st)
    (con : gearman_connection_st) (rest : List gearman_connection_st)
    (hs : con.send_ret = GEARMAN_SUCCESS) (hr : con.recv_ret = GEARMAN_SUCCESS)
    (hm : con.recv_data = workload) :
    gearman_echo_go workload state acc (con :: rest)
      = gearman_echo_go workload state
          ({ con with packet := { data := [] } } :: acc) rest := by
  simp only [gearman_echo_go]
  rw [if_neg (by simp [hs]), if_neg (by simp [hr]),
    if_neg (by simp [hm, List.take_length])]

theorem gearman_echo_create_fail (state : gearman_state_st)
    (workload create_err : List Nat) (create_ret : gearman_return_t)
    (h : create_ret ≠ GEARMAN_SUCCESS) :
    gearman_echo state workload create_ret create_err
      = (create_ret,
         gearman_callee_record state packet_create_fn_name create_err create_ret) := by
  simp [gearman_echo, h]

theorem gearman_echo_create_ok (state : gearman_state_st)
    (workload create_err : List Nat) :
    gearman_echo state workload GEARMAN_SUCCESS create_err
      = gearman_echo_go workload (gearman_state_push_blocking state) []
          (gearman_state_push_blocking state).con_list := by
  simp [gearman_echo]

/-! C5: a mismatching echo response yields ECHO_DATA_CORRUPTION with the
gearman_echo diagnostic. -/

theorem gearman_echo_go_corruption (workload : List Nat)
    (con : gearman_connection_st) (post : List gearman_connection_st)
    (hs : con.send_ret = GEARMAN_SUCCESS) (hr : con.recv_ret = GEARMAN_SUCCESS)
    (hm : con.recv_data ≠ workload) :
    ∀ (pre : List gearman_connection_st) (state : gearman_state_st)
      (acc : List gearman_connection_st),
      (∀ c ∈ pre, c.send_ret = GEARMAN_SUCCESS ∧ c.recv_ret = GEARMAN_SUCCESS
        ∧ c.recv_data = workload) →
      ∃ s1 : gearman_state_st,
        gearman_echo_go workload state acc (pre ++ con :: post)
          = (GEARMAN_ECHO_DATA_CORRUPTION,
             gearman_state_set_error s1 echo_name corruption_msg)
        ∧ s1.log_fn = state.log_fn := by
  intro pre
  induction pre with
  | nil =>
    intro state acc _
    refine ⟨gearman_state_pop_non_blocking
      { state with con_list := acc.reverse
          ++ { con with packet := { data := [] } } :: post }, ?_, ?_⟩
    · rw [List.nil_append,
        gearman_echo_go_cons_mismatch workload state acc con post hs hr hm]
    · rfl
  | cons c pre ih =>
    intro state acc h
    obtain ⟨hcs, hcr, hcd⟩ := h c (by simp)
    obtain ⟨s1, heq, hl1⟩ := ih state ({ c with packet := { data := [] } } :: acc)
      (fun x hx => h x (by simp [hx]))
    refine ⟨s1, ?_, hl1⟩
    rw [List.cons_append,
      gearman_echo_go_cons_match workload state acc c (pre ++ con :: post) hcs hcr hcd]
    exact heq

/-- C5 (amended): when gearman_echo, with no log sink registered, receives on
some connection a response whose data size differs from the workload size or
whose bytes differ from the workload (every earlier connection echoing
correctly), it returns ECHO_DATA_CORRUPTION and the session's last_error
C string begins with the bytes "gearman_echo:". With a log sink registered the
diagnostic goes to the sink instead and last_error is not written (see the
counterexample), which forces the no-sink proviso. -/
theorem gearman_echo_corruption_spec (state : gearman_state_st)
    (workload create_err : List Nat) (pre post : List gearman_connection_st)
    (con : gearman_connection_st)
    (hlist : state.con_list = pre ++ con :: post)
    (hpre : ∀ c ∈ pre, c.send_ret = GEARMAN_SUCCESS ∧ c.recv_ret = GEARMAN_SUCCESS
      ∧ c.recv_data = workload)
    (hs : con.send_ret = GEARMAN_SUCCESS) (hr : con.recv_ret = GEARMAN_SUCCESS)
    (hm : con.recv_data ≠ workload) (hlog : state.log_fn = false) :
    (gearman_echo state workload GEARMAN_SUCCESS create_err).1
        = GEARMAN_ECHO_DATA_CORRUPTION
    ∧ begins_with (str_bytes "gearman_echo:")
        (c_string
          ((gearman_echo state workload GEARMAN_SUCCESS create_err).2.last_error))
        = true := by
  obtain ⟨s1, heq, hl1⟩ := gearman_echo_go_corruption workload con post hs hr hm pre
    (gearman_state_push_blocking state) [] hpre
  have hmain : gearman_echo state workload GEARMAN_SUCCESS create_err
      = (GEARMAN_ECHO_DATA_CORRUPTION,
         gearman_state_set_error s1 echo_name corruption_msg) := by
    rw [gearman_echo_create_ok state workload create_err]
    rw [show (gearman_state_push_blocking state).con_list = pre ++ con :: post from hlist]
    exact heq
  have hl0 : s1.log_fn = false := by
    rw [hl1]
    exact hlog
  have hle := gearman_state_set_error_no_log s1 echo_name corruption_msg hl0 (by decide)
  constructor
  · rw [hmain]
  · rw [hmain]
    simp only [hle]
    decide

/-- C5 counterexample: with a log sink registered, a corrupted echo still
returns ECHO_DATA_CORRUPTION but last_error stays empty — it does not begin
with "gearman_echo:" (the diagnostic went to the sink). -/
theorem gearman_echo_corruption_cex :
    (gearman_echo sink_state [] GEARMAN_SUCCESS []).1 = GEARMAN_ECHO_DATA_CORRUPTION
    ∧ begins_with (str_bytes "gearman_echo:")
        (c_string ((gearman_echo sink_state [] GEARMAN_SUCCESS []).2.last_error))
        = false := by
  constructor
  · decide
  · decide

/-- Witness for C5 at a sinkless one-connection session whose response bytes
differ from the empty workload. -/
theorem gearman_echo_corruption_spec_witness :
    (gearman_echo no_sink_state [] GEARMAN_SUCCESS []).1 = GEARMAN_ECHO_DATA_CORRUPTION
    ∧ begins_with (str_bytes "gearman_echo:")
        (c_string ((gearman_echo no_sink_state [] GEARMAN_SUCCESS []).2.last_error))
        = true :=
  gearman_echo_corruption_spec no_sink_state [] [] [] [] mismatch_con rfl
    (by simp) (by decide) (by decide) (by decide) rfl

/-! C6: error returns and the recorded diagnostics. -/

theorem c_string_set_error_ne_nil (s : gearman_state_st) (fn msg : List Nat)
    (hl : s.log_fn = false) (hfn : fn ≠ []) (h0 : 0 ∉ fn) :
    c_string ((gearman_state_set_error s fn msg).last_error) ≠ [] := by
  obtain ⟨a, l, rfl⟩ := List.exists_cons_of_ne_nil hfn
  have ha : a ≠ 0 := fun hz => h0 (hz ▸ List.mem_cons_self a l)
  simp only [gearman_state_set_error, hl, Bool.cond_false, List.cons_append,
    List.take_succ_cons]
  simp [c_string, List.takeWhile_cons, ha]

theorem gearman_wait_grown_log_fn (s : gearman_state_st) :
    (gearman_wait_grown s).log_fn = s.log_fn := by
  unfold gearman_wait_grown
  split <;> rfl

theorem gearman_wait_prepped_log_fn (s : gearman_state_st) :
    (gearman_wait_prepped s).log_fn = s.log_fn := by
  unfold gearman_wait_prepped
  rw [show ({ gearman_wait_grown s with
      pfds := gearman_wait_entries s.con_list } : gearman_state_st).log_fn
    = (gearman_wait_grown s).log_fn from rfl]
  exact gearman_wait_grown_log_fn s

theorem gearman_wait_dispatch_cons_zero (state : gearman_state_st)
    (revs : List Nat) (acc : List gearman_connection_st)
    (con : gearman_connection_st) (rest : List gearman_connection_st)
    (h0 : con.events = 0) :
    gearman_wait_dispatch state revs acc (con :: rest)
      = gearman_wait_dispatch state revs (con :: acc) rest := by
  simp [gearman_wait_dispatch, h0]

theorem gearman_wait_dispatch_cons_ok (state : gearman_state_st)
    (revs : List Nat) (acc : List gearman_connection_st)
    (con : gearman_connection_st) (rest : List gearman_connection_st)
    (h0 : con.events ≠ 0) (hg : con.set_revents_ret = GEARMAN_SUCCESS) :
    gearman_wait_dispatch state revs acc (con :: rest)
      = gearman_wait_dispatch state revs.tail
          ((gearman_connection_set_revents con (revs.headD 0)).2 :: acc) rest := by
  simp [gearman_wait_dispatch, h0, gearman_connection_set_revents,
    gearman_callee_record, hg]

theorem gearman_wait_dispatch_cons_fail (state : gearman_state_st)
    (revs : List Nat) (acc : List gearman_connection_st)
    (con : gearman_connection_st) (rest : List gearman_connection_st)
    (h0 : con.events ≠ 0) (hg : con.set_revents_ret ≠ GEARMAN_SUCCESS) :
    gearman_wait_dispatch state revs acc (con :: rest)
      = (con.set_revents_ret,
         { gearman_callee_record state set_revents_fn_name con.set_revents_err
             con.set_revents_ret with
           con_list := acc.reverse
             ++ (gearman_connection_set_revents con (revs.headD 0)).2 :: rest }) := by
  simp [gearman_wait_dispatch, h0, gearman_connection_set_revents, hg]

theorem gearman_wait_dispatch_records :
    ∀ (cons : List gearman_connection_st) (state : gearman_state_st)
      (revs : List Nat) (acc : List gearman_connection_st),
      state.log_fn = false →
      (gearman_wait_dispatch state revs acc cons).1 ≠ GEARMAN_SUCCESS →
      (gearman_wait_dispatch state revs acc cons).1 ≠ GEARMAN_IO_WAIT →
      c_string ((gearman_wait_dispatch state revs acc cons).2.last_error) ≠ [] := by
  intro cons
  induction cons with
  | nil =>
    intro state revs acc _ hr1 _
    exact absurd rfl hr1
  | cons con rest ih =>
    intro state revs acc hlog hr1 hr2
    by_cases h0 : con.events = 0
    · rw [gearman_wait_dispatch_cons_zero state revs acc con rest h0] at hr1 hr2 ⊢
      exact ih state revs (con :: acc) hlog hr1 hr2
    · by_cases hg : con.set_revents_ret = GEARMAN_SUCCESS
      · rw [gearman_wait_dispatch_cons_ok state revs acc con rest h0 hg] at hr1 hr2 ⊢
        exact ih state revs.tail _ hlog hr1 hr2
      · rw [gearman_wait_dispatch_cons_fail state revs acc con rest h0 hg] at hr1 hr2 ⊢
        have hio : con.set_revents_ret ≠ GEARMAN_IO_WAIT := by simpa using hr2
        rw [gearman_callee_record_of_failure _ _ _ _ hg hio]
        have hgn := c_string_set_error_ne_nil state set_revents_fn_name
          con.set_revents_err hlog (by decide) (by decide)
        simpa using hgn

theorem gearman_flush_all_go_cons_skip (state : gearman_state_st)
    (con : gearman_connection_st) (rest : List gearman_connection_st)
    (hp : con.events &&& POLLOUT ≠ 0) :
    gearman_flush_all_go state (con :: rest) = gearman_flush_all_go state rest := by
  simp [gearman_flush_all_go, hp]

theorem gearman_flush_all_go_cons_okret (state : gearman_state_st)
    (con : gearman_connection_st) (rest : List gearman_connection_st)
    (hp : con.events &&& POLLOUT = 0)
    (hok : con.flush_ret = GEARMAN_SUCCESS ∨ con.flush_ret = GEARMAN_IO_WAIT) :
    gearman_flush_all_go state (con :: rest) = gearman_flush_all_go state rest := by
  rcases hok with h | h <;>
    simp [gearman_flush_all_go, hp, gearman_callee_record, h]

theorem gearman_flush_all_go_cons_failret (state : gearman_state_st)
    (con : gearman_connection_st) (rest : List gearman_connection_st)
    (hp : con.events &&& POLLOUT = 0)
    (h1 : con.flush_ret ≠ GEARMAN_SUCCESS) (h2 : con.flush_ret ≠ GEARMAN_IO_WAIT) :
    gearman_flush_all_go state (con :: rest)
      = (con.flush_ret,
         gearman_state_set_error state flush_fn_name con.flush_err) := by
  simp [gearman_flush_all_go, hp, h1, h2,
    gearman_callee_record_of_failure state flush_fn_name con.flush_err con.flush_ret h1 h2]

theorem gearman_flush_all_go_records :
    ∀ (cons : List gearman_connection_st) (state : gearman_state_st),
      state.log_fn = false →
      (gearman_flush_all_go state cons).1 ≠ GEARMAN_SUCCESS →
      (gearman_flush_all_go state cons).1 ≠ GEARMAN_IO_WAIT →
      c_string ((gearman_flush_all_go state cons).2.last_error) ≠ [] := by
  intro cons
  induction cons with
  | nil =>
    intro state _ hr1 _
    exact absurd rfl hr1
  | cons con rest ih =>
    intro state hlog hr1 hr2
    by_cases hp : con.events &&& POLLOUT = 0
    · by_cases h1 : con.flush_ret = GEARMAN_SUCCESS
      · rw [gearman_flush_all_go_cons_okret state con rest hp (Or.inl h1)] at hr1 hr2 ⊢
        exact ih state hlog hr1 hr2
      · by_cases h2 : con.flush_ret = GEARMAN_IO_WAIT
        · rw [gearman_flush_all_go_cons_okret state con rest hp (Or.inr h2)] at hr1 hr2 ⊢
          exact ih state hlog hr1 hr2
        · rw [gearman_flush_all_go_cons_failret state con rest hp h1 h2] at hr1 hr2 ⊢
          have hgn := c_string_set_error_ne_nil state flush_fn_name con.flush_err
            hlog (by decide) (by decide)
          simpa using hgn
    · rw [gearman_flush_all_go_cons_skip state con rest hp] at hr1 hr2 ⊢
      exact ih state hlog hr1 hr2

theorem gearman_echo_go_records (workload : List Nat) :
    ∀ (cons : List gearman_connection_st) (state : gearman_state_st)
      (acc : List gearman_connection_st),
      state.log_fn = false →
      (gearman_echo_go workload state acc cons).1 ≠ GEARMAN_SUCCESS →
      (gearman_echo_go workload state acc cons).1 ≠ GEARMAN_IO_WAIT →
      c_string ((gearman_echo_go workload state acc cons).2.last_error) ≠ [] := by
  intro cons
  induction cons with
  | nil =>
    intro state acc _ hr1 _
    exact absurd rfl hr1
  | cons con rest ih =>
    intro state acc hlog hr1 hr2
    by_cases hs : con.send_ret = GEARMAN_SUCCESS
    · by_cases hr : con.recv_ret = GEARMAN_SUCCESS
      · by_cases hm : con.recv_data = workload
        · rw [gearman_echo_go_cons_match workload state acc con rest hs hr hm]
            at hr1 hr2 ⊢
          exact ih state _ hlog hr1 hr2
        · rw [gearman_echo_go_cons_mismatch workload state acc con rest hs hr hm]
          have hgn := c_string_set_error_ne_nil
            (gearman_state_pop_non_blocking
              { state with con_list := acc.reverse
                  ++ { con with packet := { data := [] } } :: rest })
            echo_name corruption_msg hlog (by decide) (by decide)
          simpa using hgn
      · rw [gearman_echo_go_cons_recv_fail workload state acc con rest hs hr]
          at hr1 hr2 ⊢
        replace hr1 : con.recv_ret ≠ GEARMAN_SUCCESS := by simpa using hr1
        replace hr2 : con.recv_ret ≠ GEARMAN_IO_WAIT := by simpa using hr2
        rw [gearman_callee_record_of_failure _ _ _ _ hr1 hr2]
        have hgn := c_string_set_error_ne_nil state recv_fn_name con.recv_err hlog
          (by decide) (by decide)
        simpa [gearman_state_pop_non_blocking] using hgn
    · rw [gearman_echo_go_cons_send_fail workload state acc con rest hs] at hr1 hr2 ⊢
      replace hr1 : con.send_ret ≠ GEARMAN_SUCCESS := by simpa using hr1
      replace hr2 : con.send_ret ≠ GEARMAN_IO_WAIT := by simpa using hr2
      rw [gearman_callee_record_of_failure _ _ _ _ hr1 hr2]
      have hgn := c_string_set_error_ne_nil state send_fn_name con.send_err hlog
        (by decide) (by decide)
      simpa [gearman_state_pop_non_blocking] using hgn

/-- C6 counterexample: gearman_set_option with the unsupported option value
GEARMAN_MAX returns INVALID_COMMAND — an error other than SUCCESS and
IO_WAIT — while the session's last_error C string stays empty: no diagnostic
is populated for this operation. -/
theorem gearman_set_option_silent_cex :
    (gearman_set_option sample_state .GEARMAN_MAX true).1 = GEARMAN_INVALID_COMMAND
    ∧ (gearman_set_option sample_state .GEARMAN_MAX true).1 ≠ GEARMAN_SUCCESS
    ∧ (gearman_set_option sample_state .GEARMAN_MAX true).1 ≠ GEARMAN_IO_WAIT
    ∧ c_string ((gearman_set_option sample_state .GEARMAN_MAX true).2.last_error)
        = [] := by
  refine ⟨rfl, by decide, by decide, by decide⟩

/-- C6 (amended): except for gearman_set_option — which returns
INVALID_COMMAND without recording anything (see the counterexample) — the
session operations record a diagnostic for every return other than SUCCESS
and IO_WAIT: with no log sink registered, gearman_wait, gearman_echo and
gearman_flush_all leave a non-empty last_error C string on every such return.
For results that merely pass through a connection- or packet-level failure
this relies on the spec's contract — modelled by gearman_callee_record — that
the failing callee already recorded its diagnostic. -/
theorem gearman_errors_recorded (state : gearman_state_st)
    (hlog : state.log_fn = false) :
    (∀ (polls : List poll_outcome) (r : gearman_return_t) (s1 : gearman_state_st)
        (rest : List poll_outcome),
      gearman_wait state polls = some (r, s1, rest) →
      r ≠ GEARMAN_SUCCESS → r ≠ GEARMAN_IO_WAIT → c_string s1.last_error ≠ [])
    ∧ (∀ (workload create_err : List Nat) (create_ret : gearman_return_t),
      (gearman_echo state workload create_ret create_err).1 ≠ GEARMAN_SUCCESS →
      (gearman_echo state workload create_ret create_err).1 ≠ GEARMAN_IO_WAIT →
      c_string ((gearman_echo state workload create_ret create_err).2.last_error)
        ≠ [])
    ∧ ((gearman_flush_all state).1 ≠ GEARMAN_SUCCESS →
      (gearman_flush_all state).1 ≠ GEARMAN_IO_WAIT →
      c_string ((gearman_flush_all state).2.last_error) ≠ [])
    ∧ (∀ (opt : gearman_options_t) (v : Bool),
      ((gearman_set_option state opt v).2).last_error = state.last_error) := by
  have hplog : (gearman_wait_prepped state).log_fn = false := by
    rw [gearman_wait_prepped_log_fn]
    exact hlog
  refine ⟨?_, ?_, ?_, ?_⟩
  · intro polls r s1 rest heq hr1 hr2
    by_cases hx : (gearman_wait_entries state.con_list).length = 0
    · have hw : gearman_wait state polls
          = some (GEARMAN_NO_ACTIVE_FDS, gearman_wait_no_fds_state state, polls) := by
        unfold gearman_wait
        rw [if_pos hx]
      rw [hw] at heq
      obtain ⟨h1, h2, h3⟩ := by simpa using heq
      rw [← h2]
      exact c_string_set_error_ne_nil (gearman_wait_prepped state) wait_name no_fds_msg
        hplog (by decide) (by decide)
    · rcases hp : gearman_poll_retry polls with _ | ⟨out, rest2⟩
      · have hw : gearman_wait state polls = none := by
          unfold gearman_wait
          rw [if_neg hx, hp]
        rw [hw] at heq
        exact absurd heq (by simp)
      · rcases out with e | ⟨n, revs⟩
        · have hw : gearman_wait state polls
              = some (GEARMAN_ERRNO, gearman_wait_errno_state state e, rest2) := by
            unfold gearman_wait
            rw [if_neg hx, hp]
          rw [hw] at heq
          obtain ⟨h1, h2, h3⟩ := by simpa using heq
          rw [← h2]
          exact c_string_set_error_ne_nil (gearman_wait_prepped state) wait_name
            (poll_msg e) hplog (by decide) (by decide)
        · rcases n with _ | m
          · have hw : gearman_wait state polls
                = some (GEARMAN_TIMEOUT, gearman_wait_timeout_state state, rest2) := by
              unfold gearman_wait
              rw [if_neg hx, hp]
            rw [hw] at heq
            obtain ⟨h1, h2, h3⟩ := by simpa using heq
            rw [← h2]
            exact c_string_set_error_ne_nil (gearman_wait_prepped state) wait_name
              timeout_msg hplog (by decide) (by decide)
          · have hw : gearman_wait state polls
                = some ((gearman_wait_dispatch (gearman_wait_prepped state) revs []
                    (gearman_wait_prepped state).con_list).1,
                  (gearman_wait_dispatch (gearman_wait_prepped state) revs []
                    (gearman_wait_prepped state).con_list).2, rest2) := by
              unfold gearman_wait
              rw [if_neg hx, hp]
            rw [hw] at heq
            obtain ⟨h1, h2, h3⟩ := by simpa using heq
            rw [← h2]
            exact gearman_wait_dispatch_records (gearman_wait_prepped state).con_list
              (gearman_wait_prepped state) revs [] hplog (h1 ▸ hr1) (h1 ▸ hr2)
  · intro workload create_err create_ret hr1 hr2
    by_cases hc : create_ret = GEARMAN_SUCCESS
    · subst hc
      rw [gearman_echo_create_ok state workload create_err] at hr1 hr2 ⊢
      exact gearman_echo_go_records workload (gearman_state_push_blocking state).con_list
        (gearman_state_push_blocking state) [] hlog hr1 hr2
    · rw [gearman_echo_create_fail state workload create_err create_ret hc] at hr1 hr2 ⊢
      replace hr1 : create_ret ≠ GEARMAN_SUCCESS := by simpa using hr1
      replace hr2 : create_ret ≠ GEARMAN_IO_WAIT := by simpa using hr2
      rw [gearman_callee_record_of_failure _ _ _ _ hr1 hr2]
      have hgn := c_string_set_error_ne_nil state packet_create_fn_name create_err hlog
        (by decide) (by decide)
      simpa using hgn
  · intro hr1 hr2
    exact gearman_flush_all_go_records state.con_list state hlog hr1 hr2
  · intro opt v
    cases opt <;> rfl

/-- Witness for C6: applying the wait conjunct at a fresh session (whose wait
fails with NO_ACTIVE_FDS) yields a non-empty recorded diagnostic. -/
theorem gearman_errors_recorded_witness :
    c_string (gearman_wait_no_fds_state sample_state).last_error ≠ [] :=
  (gearman_errors_recorded sample_state rfl).1 [] GEARMAN_NO_ACTIVE_FDS
    (gearman_wait_no_fds_state sample_state) [] (by decide) (by decide) (by decide)
